import Mathlib

/-!
# Verification of the frustum-bucket drainage simulator

Shallow embedding of `frustum_simulator/main.py` (class `FrustumBucket` and the
module-level fluid data), over exact real arithmetic.  Python floats are
modelled as real numbers; code paths that raise a Python exception
(`ZeroDivisionError` in `_calculate_height`, in the `-Q / A` step of
`simulate`, and the `ValueError` of `np.gradient` on short inputs) are
modelled with `Option`, `none` standing for the raised exception.  The
unbounded `while` loop of `simulate` is modelled by a fuel-indexed recursion;
the fuel bound is justified by the loop's own 10000-second time cap, and the
theorems below show that for a positive time step the loop always exits
through one of its own two exit conditions, never by fuel exhaustion.
-/

noncomputable section

/-- Properties of different fluids, mirroring the `FluidProperties` dataclass. -/
structure FluidProperties where
  name : String
  density : ℝ
  dynamic_viscosity : ℝ
  kinematic_viscosity : ℝ

/-- The `"water"` entry of the module-level `FLUIDS` table; it is the default
fluid used by `FrustumBucket.__init__` when `fluid=None` is passed.  The other
catalog entries play no role in the claims; note that every entry of the
table has a positive kinematic viscosity. -/
def water : FluidProperties :=
  { name := "Water", density := 1000, dynamic_viscosity := 0.001,
    kinematic_viscosity := 1e-6 }

/-- The state of a `FrustumBucket` object: exactly the attributes stored by
`__init__` (the derived attributes `volume_m3`, `outlet_area`, `height` are
pure functions of these and are embedded as functions below). -/
structure FrustumBucket where
  r1 : ℝ
  r2 : ℝ
  volume_liters : ℝ
  outlet_diameter : ℝ
  discharge_coeff : ℝ
  fluid : FluidProperties

namespace FrustumBucket

/-- `FrustumBucket.GRAVITY = 9.81`. -/
def GRAVITY : ℝ := 9.81

/-- `self.volume_m3 = volume / 1000.0` (liters to cubic meters). -/
def volume_m3 (b : FrustumBucket) : ℝ := b.volume_liters / 1000

/-- `self.outlet_area = np.pi * (outlet_diameter / 2) ** 2`. -/
def outlet_area (b : FrustumBucket) : ℝ :=
  Real.pi * (b.outlet_diameter / 2) ^ 2

/-- `_calculate_height`: `3*V / (pi * (r1**2 + r1*r2 + r2**2))`.  Real
division; the Python `ZeroDivisionError` on a zero denominator is modelled in
`construct` below. -/
def calculate_height (b : FrustumBucket) : ℝ :=
  3 * b.volume_m3 / (Real.pi * (b.r1 ^ 2 + b.r1 * b.r2 + b.r2 ^ 2))

/-- `self.height`, computed once in `__init__`. -/
def height (b : FrustumBucket) : ℝ := b.calculate_height

/-- `FrustumBucket.__init__`.  The constructor performs no parameter
validation whatsoever; the only way it can fail is the `ZeroDivisionError`
raised by `_calculate_height` when `pi * (r1**2 + r1*r2 + r2**2) == 0`
(modelled as `none`).  A `None` fluid defaults to `water`. -/
def construct (r1 r2 volume outlet_diameter discharge_coeff : ℝ)
    (fluid : Option FluidProperties) : Option FrustumBucket :=
  if Real.pi * (r1 ^ 2 + r1 * r2 + r2 ^ 2) = 0 then none
  else
    some { r1 := r1, r2 := r2, volume_liters := volume,
           outlet_diameter := outlet_diameter,
           discharge_coeff := discharge_coeff,
           fluid := fluid.getD water }

/-- `radius_at_height`: `r2 + (r1 - r2) * (h / height)`. -/
def radius_at_height (b : FrustumBucket) (h : ℝ) : ℝ :=
  b.r2 + (b.r1 - b.r2) * (h / b.height)

/-- `cross_sectional_area`: `pi * r**2` at the radius for height `h`. -/
def cross_sectional_area (b : FrustumBucket) (h : ℝ) : ℝ :=
  Real.pi * b.radius_at_height h ^ 2

/-- `_reynolds_number`: `velocity * diameter / kinematic_viscosity`. -/
def reynolds_number (b : FrustumBucket) (velocity diameter : ℝ) : ℝ :=
  velocity * diameter / b.fluid.kinematic_viscosity

/-- `flow_rate`: Torricelli's law with discharge coefficient and, for
`discharge_coeff < 1.0` only, the empirical Reynolds-number viscosity
correction.  Mirrors the source branch for branch. -/
def flow_rate (b : FrustumBucket) (h : ℝ) : ℝ :=
  if h ≤ 0 then 0
  else
    let velocity_ideal := Real.sqrt (2 * GRAVITY * h)
    let velocity := b.discharge_coeff * velocity_ideal
    if b.discharge_coeff < 1 then
      let Re := b.reynolds_number velocity b.outlet_diameter
      let viscosity_factor :=
        if Re < 2300 then 0.7
        else if Re < 4000 then 0.85
        else if Re > 1000 then 1 - 1000 / Re else 0.5
      b.outlet_area * (velocity * viscosity_factor)
    else
      b.outlet_area * velocity

/-- The loop cursor of `simulate` plus the two accumulator lists. -/
structure SimState where
  time : ℝ
  height : ℝ
  times : List ℝ
  heights : List ℝ

/-- One iteration of the body of the `while` loop in `simulate`: compute
`Q`, `A`, `dh_dt = -Q / A` (Python raises `ZeroDivisionError` when `A == 0`,
modelled as `none`), take the Euler step, clamp the height at `0`, advance
time and append the new sample. -/
def simStep (b : FrustumBucket) (dt : ℝ) (s : SimState) : Option SimState :=
  let Q := b.flow_rate s.height
  let A := b.cross_sectional_area s.height
  if A = 0 then none
  else
    let dh_dt := -Q / A
    let h1 := s.height + dh_dt * dt
    let t1 := s.time + dt
    let h2 := if h1 < 0 then 0 else h1
    some { time := t1, height := h2,
           times := s.times ++ [t1], heights := s.heights ++ [h2] }

/-- The `while current_height > 1e-6` loop of `simulate`, indexed by fuel.
`none` models a run that has not produced a value: either a
`ZeroDivisionError` inside a step, or fuel exhaustion (the Python loop is
still running after that many iterations). -/
def simLoop (b : FrustumBucket) (dt : ℝ) : ℕ → SimState → Option SimState
  | 0, _ => none
  | n + 1, s =>
    if s.height ≤ 1e-6 then some s
    else
      match simStep b dt s with
      | none => none
      | some s2 => if s2.time > 10000 then some s2 else simLoop b dt n s2

/-- Loop entry state: `time = 0`, `height = self.height`, trace seeded with
the initial sample `(0, height)`. -/
def initState (b : FrustumBucket) : SimState :=
  { time := 0, height := b.height, times := [0], heights := [b.height] }

/-- Loop invariant of `simulate`'s while loop: the two accumulator lists end
with the current cursor `(time, height)`, have equal length, the recorded
heights are non-increasing, and the current height is non-negative. -/
def SimInv (s : SimState) : Prop :=
  s.times.getLast? = some s.time ∧ s.heights.getLast? = some s.height ∧
    s.heights.length = s.times.length ∧
    List.Chain' (fun a c => c ≤ a) s.heights ∧ 0 ≤ s.height

/-- Fuel for `simLoop`.  Each iteration advances time by exactly `dt` and the
loop breaks as soon as time exceeds `10000`, so for `dt > 0` at most
`ceil(10000/dt) + 1` iterations can run; this fuel is therefore never the
binding constraint for `dt > 0` (proved below), and for `dt ≤ 0` no finite
fuel suffices (the Python loop never terminates). -/
def simFuel (dt : ℝ) : ℕ := ⌈(10000 : ℝ) / dt⌉₊ + 2

/-- `simulate(time_step)`: returns the pair
`(time_points, height_points)`; `none` models a call that raises or never
returns. -/
def simulate (b : FrustumBucket) (dt : ℝ) : Option (List ℝ × List ℝ) :=
  (simLoop b dt (simFuel dt) (initState b)).map fun s => (s.times, s.heights)

/-- One entry of `np.gradient(height_points, time_points)` for 1-D data with
explicit coordinates and default `edge_order=1`: one-sided differences at the
two ends, the three-point nonuniform central-difference formula of numpy in
the interior (coefficients `-dx2/(dx1*(dx1+dx2))`, `(dx2-dx1)/(dx1*dx2)`,
`dx1/(dx2*(dx1+dx2))`). -/
def gradientAt (x f : List ℝ) (i : ℕ) : ℝ :=
  if i = 0 then
    (f.getD 1 0 - f.getD 0 0) / (x.getD 1 0 - x.getD 0 0)
  else if i = x.length - 1 then
    (f.getD i 0 - f.getD (i - 1) 0) / (x.getD i 0 - x.getD (i - 1) 0)
  else
    let dx1 := x.getD i 0 - x.getD (i - 1) 0
    let dx2 := x.getD (i + 1) 0 - x.getD i 0
    let a := -dx2 / (dx1 * (dx1 + dx2))
    let b := (dx2 - dx1) / (dx1 * dx2)
    let c := dx1 / (dx2 * (dx1 + dx2))
    a * f.getD (i - 1) 0 + b * f.getD i 0 + c * f.getD (i + 1) 0

/-- `FrustumBucket.calculate_derivative`, i.e.
`np.gradient(height_points, time_points).tolist()`.  `np.gradient` with
`edge_order=1` raises a `ValueError` unless the value array has at least two
entries matching the coordinate array in length; the raise is modelled as
`none`. -/
def calculate_derivative (time_points height_points : List ℝ) :
    Option (List ℝ) :=
  if 2 ≤ height_points.length ∧ time_points.length = height_points.length then
    some ((List.range height_points.length).map
      (gradientAt time_points height_points))
  else none

/-- Validity of the constructor parameters as the specification states them:
`r1 > r2 > 0`, positive volume and outlet diameter, `0 < Cd ≤ 1`, and a
fluid with positive kinematic viscosity (every entry of the `FLUIDS` catalog
has one; a zero viscosity would make Python's `_reynolds_number` raise). -/
def Valid (b : FrustumBucket) : Prop :=
  0 < b.r2 ∧ b.r2 < b.r1 ∧ 0 < b.volume_liters ∧ 0 < b.outlet_diameter ∧
    0 < b.discharge_coeff ∧ b.discharge_coeff ≤ 1 ∧
    0 < b.fluid.kinematic_viscosity

end FrustumBucket

/-- The `TerminationReason` of the specification (`Drained` or `TimedOut`).
Modelled from the spec: no such type exists anywhere in the source; it is
introduced only to state what the specification asks of `simulate`'s result. -/
inductive TerminationReason where
  | Drained : TerminationReason
  | TimedOut : TerminationReason
deriving DecidableEq

namespace FrustumBucket

/-- A concrete valid bucket (all spec-side parameter constraints hold),
used to instantiate universally quantified theorems. -/
def unitBucket : FrustumBucket :=
  { r1 := 2, r2 := 1, volume_liters := 1, outlet_diameter := 1,
    discharge_coeff := 1, fluid := water }

/-- A concrete valid bucket with `Cd = 1/2` and a `4 mm` outlet in water:
its Reynolds number crosses the `Re = 4000` regime boundary between the
heights `361/1962` and `200/981`. -/
def viscousBucket : FrustumBucket :=
  { r1 := 2, r2 := 1, volume_liters := 1, outlet_diameter := 1 / 250,
    discharge_coeff := 1 / 2, fluid := water }

/-- A concrete valid bucket whose volume is chosen so that
`height = 200/981` (hence `2 * 9.81 * height = 4`) and whose `2 m` outlet
drains it in a single Euler step. -/
def capBucket : FrustumBucket :=
  { r1 := 1, r2 := 1 / 2, volume_liters := 350000 * Real.pi / 2943,
    outlet_diameter := 2, discharge_coeff := 1, fluid := water }

/-- A concrete valid bucket whose volume is chosen so that
`height = 1e-7 ≤ 1e-6`: `simulate` returns the one-sample trace for it. -/
def tinyBucket : FrustumBucket :=
  { r1 := 2, r2 := 1, volume_liters := 7 * Real.pi / 30000,
    outlet_diameter := 1, discharge_coeff := 1, fluid := water }

/-- A concrete valid bucket whose volume is chosen so that `height = 1`. -/
def tallBucket : FrustumBucket :=
  { r1 := 2, r2 := 1, volume_liters := 7000 * Real.pi / 3,
    outlet_diameter := 1, discharge_coeff := 1, fluid := water }

end FrustumBucket

end

namespace FrustumBucket

theorem height_pos {b : FrustumBucket} (hb : b.Valid) : 0 < b.height := by
  obtain ⟨h2, h21, hV, -, -, -, -⟩ := hb
  have hr1 : 0 < b.r1 := lt_trans h2 h21
  unfold height calculate_height volume_m3
  have hpi := Real.pi_pos
  apply div_pos
  · positivity
  · positivity

theorem radius_pos {b : FrustumBucket} (hb : b.Valid) {h : ℝ} (hh : 0 < h) :
    0 < b.radius_at_height h := by
  have hr := sub_pos.mpr hb.2.1
  have := mul_pos hr (div_pos hh (height_pos hb))
  unfold radius_at_height
  linarith [hb.1]

theorem area_pos {b : FrustumBucket} (hb : b.Valid) {h : ℝ} (hh : 0 < h) :
    0 < b.cross_sectional_area h := by
  have hr := radius_pos hb hh
  unfold cross_sectional_area
  have hpi := Real.pi_pos
  positivity

theorem outlet_area_nonneg (b : FrustumBucket) : 0 ≤ b.outlet_area := by
  unfold outlet_area
  have hpi := Real.pi_pos
  positivity

theorem flow_rate_nonneg {b : FrustumBucket} (hcd : 0 ≤ b.discharge_coeff)
    (h : ℝ) : 0 ≤ b.flow_rate h := by
  have harea := b.outlet_area_nonneg
  have hv : 0 ≤ b.discharge_coeff * Real.sqrt (2 * GRAVITY * h) :=
    mul_nonneg hcd (Real.sqrt_nonneg _)
  rw [flow_rate]
  split_ifs with h0
  · exact le_refl 0
  dsimp only
  split_ifs with h1 h2 h3
  · exact mul_nonneg harea (mul_nonneg hv (by norm_num))
  · exact mul_nonneg harea (mul_nonneg hv (by norm_num))
  · refine mul_nonneg harea (mul_nonneg hv ?_)
    have hRe : (4000 : ℝ) ≤
        b.reynolds_number (b.discharge_coeff * Real.sqrt (2 * GRAVITY * h))
          b.outlet_diameter := not_lt.mp h2
    have hRe0 : (0 : ℝ) <
        b.reynolds_number (b.discharge_coeff * Real.sqrt (2 * GRAVITY * h))
          b.outlet_diameter := by linarith
    have hd1 : 1000 /
        b.reynolds_number (b.discharge_coeff * Real.sqrt (2 * GRAVITY * h))
          b.outlet_diameter ≤ 1 := by
      rw [div_le_one hRe0]; linarith
    linarith
  · exact mul_nonneg harea (mul_nonneg hv (by norm_num))
  · dsimp only
    exact mul_nonneg harea hv

end FrustumBucket

namespace FrustumBucket

theorem simStep_some {b : FrustumBucket} {dt : ℝ} {s s2 : SimState}
    (h : b.simStep dt s = some s2) :
    s2.time = s.time + dt ∧ s2.times = s.times ++ [s.time + dt] ∧
      s2.heights = s.heights ++ [s2.height] ∧ 0 ≤ s2.height := by
  rw [simStep] at h
  dsimp only at h
  split_ifs at h with hA hneg
  · cases h
    exact ⟨rfl, rfl, rfl, le_refl 0⟩
  · cases h
    exact ⟨rfl, rfl, rfl, le_of_not_lt hneg⟩

theorem simStep_isSome {b : FrustumBucket} (hb : b.Valid) {dt : ℝ}
    {s : SimState} (hs : 0 < s.height) : ∃ s2, b.simStep dt s = some s2 := by
  have hA := area_pos hb hs
  rw [simStep]
  dsimp only
  rw [if_neg hA.ne']
  exact ⟨_, rfl⟩

theorem simStep_height_le {b : FrustumBucket} (hb : b.Valid) {dt : ℝ}
    {s s2 : SimState} (hs : 0 < s.height) (hdt : 0 ≤ dt)
    (h : b.simStep dt s = some s2) : s2.height ≤ s.height := by
  have hA := area_pos hb hs
  have hQ := flow_rate_nonneg (le_of_lt hb.2.2.2.2.1) s.height
  rw [simStep] at h
  dsimp only at h
  rw [if_neg hA.ne'] at h
  cases h
  dsimp only
  have hdh : -b.flow_rate s.height / b.cross_sectional_area s.height ≤ 0 :=
    div_nonpos_iff.mpr (Or.inr ⟨neg_nonpos.mpr hQ, hA.le⟩)
  have hmul : -b.flow_rate s.height / b.cross_sectional_area s.height * dt ≤ 0 :=
    mul_nonpos_iff.mpr (Or.inr ⟨hdh, hdt⟩)
  split_ifs with hneg
  · linarith
  · linarith

theorem simStep_height_ge {b : FrustumBucket} (hb : b.Valid) {dt : ℝ}
    {s s2 : SimState} (hs : 0 < s.height) (hdt : dt ≤ 0)
    (h : b.simStep dt s = some s2) : s.height ≤ s2.height := by
  have hA := area_pos hb hs
  have hQ := flow_rate_nonneg (le_of_lt hb.2.2.2.2.1) s.height
  rw [simStep] at h
  dsimp only at h
  rw [if_neg hA.ne'] at h
  cases h
  dsimp only
  have hdh : -b.flow_rate s.height / b.cross_sectional_area s.height ≤ 0 :=
    div_nonpos_iff.mpr (Or.inr ⟨neg_nonpos.mpr hQ, hA.le⟩)
  have hmul : 0 ≤ -b.flow_rate s.height / b.cross_sectional_area s.height * dt :=
    mul_nonneg_iff.mpr (Or.inr ⟨hdh, hdt⟩)
  split_ifs with hneg
  · linarith
  · linarith

end FrustumBucket

namespace FrustumBucket

theorem simLoop_some_spec {b : FrustumBucket} (hb : b.Valid) {dt : ℝ}
    (hdt : 0 < dt) :
    ∀ n (s s' : SimState), SimInv s → b.simLoop dt n s = some s' →
      SimInv s' ∧ s'.times.head? = s.times.head? ∧
        s'.heights.head? = s.heights.head? ∧
        (s'.height ≤ 1e-6 ∨ s'.time > 10000) := by
  intro n
  induction n with
  | zero =>
    intro s s' _ h
    rw [simLoop] at h
    cases h
  | succ n ih =>
    intro s s' hInv h
    obtain ⟨hI1, hI2, hI3, hI4, hI5⟩ := hInv
    rw [simLoop] at h
    by_cases hle : s.height ≤ 1e-6
    · rw [if_pos hle] at h
      cases h
      exact ⟨⟨hI1, hI2, hI3, hI4, hI5⟩, rfl, rfl, Or.inl hle⟩
    · rw [if_neg hle] at h
      have hs : 0 < s.height := lt_trans (by norm_num) (lt_of_not_le hle)
      obtain ⟨s2, hstep⟩ := @simStep_isSome _ hb dt _ hs
      rw [hstep] at h
      dsimp only at h
      obtain ⟨ht2, hts2, hhs2, hnn2⟩ := simStep_some hstep
      have hle2 : s2.height ≤ s.height := simStep_height_le hb hs hdt.le hstep
      have hts_ne : s.times ≠ [] := by
        intro hnil
        rw [hnil] at hI1
        cases hI1
      have hhs_ne : s.heights ≠ [] := by
        intro hnil
        rw [hnil] at hI2
        cases hI2
      have hJ1 : s2.times.getLast? = some s2.time := by
        rw [hts2, ht2, List.getLast?_append_of_ne_nil _ (by simp)]
        rfl
      have hJ2 : s2.heights.getLast? = some s2.height := by
        rw [hhs2, List.getLast?_append_of_ne_nil _ (by simp)]
        rfl
      have hJ3 : s2.heights.length = s2.times.length := by
        rw [hts2, hhs2]
        simp [hI3]
      have hJ4 : List.Chain' (fun a c => c ≤ a) s2.heights := by
        rw [hhs2]
        refine List.chain'_append.mpr ⟨hI4, List.chain'_singleton _, ?_⟩
        intro x hx y hy
        simp only [List.head?_cons, Option.mem_def, Option.some.injEq] at hy
        rw [hI2, Option.mem_def, Option.some.injEq] at hx
        rw [← hy, ← hx] at *
        exact hle2
      have hheads : s2.times.head? = s.times.head? ∧
          s2.heights.head? = s.heights.head? := by
        rw [hts2, hhs2]
        exact ⟨List.head?_append_of_ne_nil _ hts_ne,
          List.head?_append_of_ne_nil _ hhs_ne⟩
      by_cases hcap : s2.time > 10000
      · rw [if_pos hcap] at h
        cases h
        exact ⟨⟨hJ1, hJ2, hJ3, hJ4, hnn2⟩, hheads.1, hheads.2, Or.inr hcap⟩
      · rw [if_neg hcap] at h
        obtain ⟨hinv', hh1, hh2, hfin⟩ := ih s2 s' ⟨hJ1, hJ2, hJ3, hJ4, hnn2⟩ h
        exact ⟨hinv', hh1.trans hheads.1, hh2.trans hheads.2, hfin⟩

theorem simLoop_total {b : FrustumBucket} (hb : b.Valid) {dt : ℝ}
    (hdt : 0 < dt) :
    ∀ (n : ℕ) (s : SimState), 10000 < s.time + (n : ℝ) * dt →
      ∃ s', b.simLoop dt (n + 1) s = some s' := by
  intro n
  induction n with
  | zero =>
    intro s hcap
    rw [simLoop]
    by_cases hle : s.height ≤ 1e-6
    · exact ⟨s, by rw [if_pos hle]⟩
    · rw [if_neg hle]
      have hs : 0 < s.height := lt_trans (by norm_num) (lt_of_not_le hle)
      obtain ⟨s2, hstep⟩ := @simStep_isSome _ hb dt _ hs
      rw [hstep]
      dsimp only
      obtain ⟨ht2, -, -, -⟩ := simStep_some hstep
      have hcap2 : s2.time > 10000 := by
        rw [ht2]
        push_cast at hcap
        linarith
      exact ⟨s2, by rw [if_pos hcap2]⟩
  | succ n ih =>
    intro s hcap
    rw [simLoop]
    by_cases hle : s.height ≤ 1e-6
    · exact ⟨s, by rw [if_pos hle]⟩
    · rw [if_neg hle]
      have hs : 0 < s.height := lt_trans (by norm_num) (lt_of_not_le hle)
      obtain ⟨s2, hstep⟩ := @simStep_isSome _ hb dt _ hs
      rw [hstep]
      dsimp only
      obtain ⟨ht2, -, -, -⟩ := simStep_some hstep
      by_cases hcap2 : s2.time > 10000
      · exact ⟨s2, by rw [if_pos hcap2]⟩
      · rw [if_neg hcap2]
        refine ih s2 ?_
        rw [ht2]
        push_cast at hcap ⊢
        linarith

theorem simLoop_times {b : FrustumBucket} {dt : ℝ} :
    ∀ n (s s' : SimState),
      s.times = (List.range s.times.length).map (fun i : ℕ => (i : ℝ) * dt) →
      s.time = ((s.times.length - 1 : ℕ) : ℝ) * dt →
      1 ≤ s.times.length →
      b.simLoop dt n s = some s' →
      s'.times = (List.range s'.times.length).map (fun i : ℕ => (i : ℝ) * dt) ∧
        s'.times.length ≤ s.times.length + n := by
  intro n
  induction n with
  | zero =>
    intro s s' _ _ _ h
    rw [simLoop] at h
    cases h
  | succ n ih =>
    intro s s' hrep htime hlen h
    rw [simLoop] at h
    by_cases hle : s.height ≤ 1e-6
    · rw [if_pos hle] at h
      cases h
      exact ⟨hrep, by omega⟩
    · rw [if_neg hle] at h
      cases hstep : b.simStep dt s with
      | none =>
        rw [hstep] at h
        dsimp only at h
        cases h
      | some s2 =>
        rw [hstep] at h
        dsimp only at h
        obtain ⟨ht2, hts2, -, -⟩ := simStep_some hstep
        have hnext : s.time + dt = (s.times.length : ℝ) * dt := by
          rw [htime]
          rw [Nat.cast_sub hlen]
          push_cast
          ring
        have hlen12 : s2.times.length = s.times.length + 1 := by
          rw [hts2]
          simp
        have hrep2 : s2.times =
            (List.range s2.times.length).map (fun i : ℕ => (i : ℝ) * dt) := by
          rw [hts2]
          calc s.times ++ [s.time + dt]
              = (List.range s.times.length).map (fun i : ℕ => (i : ℝ) * dt) ++
                [(s.times.length : ℝ) * dt] := by rw [← hrep, hnext]
            _ = (List.range (s.times.length + 1)).map
                (fun i : ℕ => (i : ℝ) * dt) := by
                rw [List.range_succ, List.map_append]
                simp
            _ = (List.range ((s.times ++ [s.time + dt]).length)).map
                (fun i : ℕ => (i : ℝ) * dt) := by simp
        have htime2 : s2.time = ((s2.times.length - 1 : ℕ) : ℝ) * dt := by
          rw [ht2, hlen12]
          simp only [Nat.add_sub_cancel]
          exact hnext
        have hlen2 : 1 ≤ s2.times.length := by omega
        by_cases hcap : s2.time > 10000
        · rw [if_pos hcap] at h
          cases h
          exact ⟨hrep2, by omega⟩
        · rw [if_neg hcap] at h
          obtain ⟨hr', hl'⟩ := ih s2 s' hrep2 htime2 hlen2 h
          exact ⟨hr', by omega⟩

theorem simLoop_none_of_nonpos {b : FrustumBucket} (hb : b.Valid) {dt : ℝ}
    (hdt : dt ≤ 0) :
    ∀ n (s : SimState), 1e-6 < s.height → s.time ≤ 10000 →
      b.simLoop dt n s = none := by
  intro n
  induction n with
  | zero =>
    intro s _ _
    rw [simLoop]
  | succ n ih =>
    intro s hgt hcap
    rw [simLoop]
    rw [if_neg (not_le.mpr hgt)]
    have hs : 0 < s.height := lt_trans (by norm_num) hgt
    obtain ⟨s2, hstep⟩ := @simStep_isSome _ hb dt _ hs
    rw [hstep]
    dsimp only
    obtain ⟨ht2, -, -, -⟩ := simStep_some hstep
    have hge := simStep_height_ge hb hs hdt hstep
    have hcap2 : ¬s2.time > 10000 := by
      rw [ht2]
      push_neg
      linarith
    rw [if_neg hcap2]
    exact ih s2 (lt_of_lt_of_le hgt hge) (by rw [ht2]; linarith)

end FrustumBucket

namespace FrustumBucket

theorem initState_inv {b : FrustumBucket} (hb : b.Valid) :
    SimInv (initState b) :=
  ⟨rfl, rfl, rfl, List.chain'_singleton _, (height_pos hb).le⟩

theorem simulate_run {b : FrustumBucket} (hb : b.Valid) {dt : ℝ}
    (hdt : 0 < dt) :
    ∃ s', b.simLoop dt (simFuel dt) (initState b) = some s' ∧
      b.simulate dt = some (s'.times, s'.heights) ∧ SimInv s' ∧
      s'.times.head? = some 0 ∧ s'.heights.head? = some b.height ∧
      (s'.height ≤ 1e-6 ∨ s'.time > 10000) := by
  have hcap : 10000 <
      (initState b).time + ((⌈(10000 : ℝ) / dt⌉₊ + 1 : ℕ) : ℝ) * dt := by
    have h1 : (10000 : ℝ) / dt ≤ (⌈(10000 : ℝ) / dt⌉₊ : ℝ) := Nat.le_ceil _
    have h2 : (10000 : ℝ) / dt * dt ≤ (⌈(10000 : ℝ) / dt⌉₊ : ℝ) * dt :=
      mul_le_mul_of_nonneg_right h1 hdt.le
    have h3 : (10000 : ℝ) / dt * dt = 10000 := div_mul_cancel₀ _ hdt.ne'
    have h4 : (initState b).time = 0 := rfl
    push_cast
    rw [h4]
    nlinarith
  obtain ⟨s', hs'⟩ :=
    simLoop_total hb hdt (⌈(10000 : ℝ) / dt⌉₊ + 1) (initState b) hcap
  have hfuel : simFuel dt = ⌈(10000 : ℝ) / dt⌉₊ + 1 + 1 := rfl
  obtain ⟨hinv, hh1, hh2, hfin⟩ :=
    simLoop_some_spec hb hdt (⌈(10000 : ℝ) / dt⌉₊ + 1 + 1) (initState b) s'
      (initState_inv hb) hs'
  refine ⟨s', hfuel ▸ hs', ?_, hinv, ?_, ?_, hfin⟩
  · rw [simulate, hfuel, hs']
    rfl
  · rw [hh1]
    rfl
  · rw [hh2]
    rfl

end FrustumBucket

namespace FrustumBucket

theorem tallBucket_height : tallBucket.height = 1 := by
  unfold height calculate_height volume_m3
  simp only [tallBucket]
  have hπ := Real.pi_ne_zero
  field_simp
  ring

theorem tinyBucket_height : tinyBucket.height = 1e-7 := by
  unfold height calculate_height volume_m3
  simp only [tinyBucket]
  have hπ := Real.pi_ne_zero
  rw [show (1e-7 : ℝ) = 1 / 10000000 by norm_num]
  field_simp
  ring

theorem capBucket_height : capBucket.height = 200 / 981 := by
  unfold height calculate_height volume_m3
  simp only [capBucket]
  have hπ := Real.pi_ne_zero
  field_simp
  ring

theorem unitBucket_valid : unitBucket.Valid := by
  refine ⟨?_, ?_, ?_, ?_, ?_, ?_, ?_⟩ <;> norm_num [unitBucket, water]

end FrustumBucket

open FrustumBucket in
/-- C1: for every bucket with valid parameters (`r1 > r2 > 0`, positive
volume, positive outlet diameter, `0 < Cd ≤ 1`, a catalog fluid) and every
time step `dt > 0`, `simulate(dt)` returns a trace that starts with the
sample `(0, height)`, contains at least that sample, has non-increasing
heights from each sample to the next, and whose final sample satisfies
`height ≤ 1e-6` (drained) or `time > 10000` (timed out). -/
theorem claim_C1 (b : FrustumBucket) (hb : b.Valid) (dt : ℝ) (hdt : 0 < dt) :
    ∃ ts hs, b.simulate dt = some (ts, hs) ∧
      ts.head? = some 0 ∧ hs.head? = some b.height ∧ 1 ≤ hs.length ∧
      List.Chain' (fun a c => c ≤ a) hs ∧
      ∃ tl hl, ts.getLast? = some tl ∧ hs.getLast? = some hl ∧
        (hl ≤ 1e-6 ∨ tl > 10000) := by
  obtain ⟨s', hloop, hsim, hinv, hh1, hh2, hfin⟩ := simulate_run hb hdt
  refine ⟨s'.times, s'.heights, hsim, hh1, hh2, ?_, hinv.2.2.2.1,
    s'.time, s'.height, hinv.1, hinv.2.1, hfin⟩
  have hlast := hinv.2.1
  cases hhe : s'.heights with
  | nil => rw [hhe] at hlast; cases hlast
  | cons a t => simp

/-- Witness for C1 at a concrete valid bucket and `dt = 1`. -/
theorem claim_C1_witness :
    FrustumBucket.unitBucket.Valid ∧ (0 : ℝ) < 1 ∧
      (∃ ts hs, FrustumBucket.unitBucket.simulate 1 = some (ts, hs) ∧
        ts.head? = some 0 ∧
        hs.head? = some FrustumBucket.unitBucket.height ∧ 1 ≤ hs.length ∧
        List.Chain' (fun a c => c ≤ a) hs ∧
        ∃ tl hl, ts.getLast? = some tl ∧ hs.getLast? = some hl ∧
          (hl ≤ 1e-6 ∨ tl > 10000)) :=
  ⟨by refine ⟨?_, ?_, ?_, ?_, ?_, ?_, ?_⟩ <;>
      norm_num [FrustumBucket.unitBucket, water],
   by norm_num,
   claim_C1 FrustumBucket.unitBucket
     (by refine ⟨?_, ?_, ?_, ?_, ?_, ?_, ?_⟩ <;>
        norm_num [FrustumBucket.unitBucket, water])
     1 (by norm_num)⟩

open FrustumBucket in
/-- C8: for every valid bucket and `dt > 0`, `simulate(dt)` terminates after
finitely many steps with a defined result; the trace has at most
`ceil(10000/dt) + 3` samples (one initial sample plus about `10000/dt`
iterations), and the recorded times are exactly `0, dt, 2*dt, ...` — each
iteration advances time by exactly `dt`, and the loop stops once time
exceeds the 10000-second cap regardless of height. -/
theorem claim_C8 (b : FrustumBucket) (hb : b.Valid) (dt : ℝ) (hdt : 0 < dt) :
    ∃ ts hs, b.simulate dt = some (ts, hs) ∧
      ts.length ≤ ⌈(10000 : ℝ) / dt⌉₊ + 3 ∧
      ts = (List.range ts.length).map (fun i : ℕ => (i : ℝ) * dt) := by
  obtain ⟨s', hloop, hsim, hinv, hh1, hh2, hfin⟩ := simulate_run hb hdt
  have hrep0 : (initState b).times =
      (List.range (initState b).times.length).map
        (fun i : ℕ => (i : ℝ) * dt) := by
    have : List.range 1 = [0] := rfl
    simp [initState, this]
  have htime0 : (initState b).time =
      (((initState b).times.length - 1 : ℕ) : ℝ) * dt := by
    simp [initState]
  have hlen0 : 1 ≤ (initState b).times.length := by simp [initState]
  obtain ⟨hrep, hlen⟩ :=
    simLoop_times (simFuel dt) (initState b) s' hrep0 htime0 hlen0 hloop
  refine ⟨s'.times, s'.heights, hsim, ?_, hrep⟩
  have h1 : (initState b).times.length = 1 := by simp [initState]
  have h2 : simFuel dt = ⌈(10000 : ℝ) / dt⌉₊ + 2 := rfl
  omega

/-- Witness for C8 at a concrete valid bucket and `dt = 1`. -/
theorem claim_C8_witness :
    FrustumBucket.unitBucket.Valid ∧ (0 : ℝ) < 1 ∧
      (∃ ts hs, FrustumBucket.unitBucket.simulate 1 = some (ts, hs) ∧
        ts.length ≤ ⌈(10000 : ℝ) / 1⌉₊ + 3 ∧
        ts = (List.range ts.length).map (fun i : ℕ => (i : ℝ) * 1)) :=
  ⟨by refine ⟨?_, ?_, ?_, ?_, ?_, ?_, ?_⟩ <;>
      norm_num [FrustumBucket.unitBucket, water],
   by norm_num,
   claim_C8 FrustumBucket.unitBucket
     (by refine ⟨?_, ?_, ?_, ?_, ?_, ?_, ?_⟩ <;>
        norm_num [FrustumBucket.unitBucket, water])
     1 (by norm_num)⟩

open FrustumBucket in
/-- C10: on a validly constructed bucket (`r1 > r2 > 0` and the other spec
constraints) the cross-sectional area is nonzero at every height the loop
can step from (any `h > 1e-6`), so the `-Q / A` division of every step is
well defined, and `simulate` completes with a defined trace — no
division-by-zero is raised and no undefined height enters the trace.  (The
`A == 0` situation the spec describes never arises for a valid bucket, so
the described "treat `dh/dt` as `0`" handling is never exercised.) -/
theorem claim_C10 (b : FrustumBucket) (hb : b.Valid) (dt : ℝ)
    (hdt : 0 < dt) :
    (∀ h : ℝ, 1e-6 < h → b.cross_sectional_area h ≠ 0) ∧
      ∃ p, b.simulate dt = some p := by
  constructor
  · intro h hh
    exact (area_pos hb (lt_trans (by norm_num) hh)).ne'
  · obtain ⟨s', hloop, hsim, -⟩ := simulate_run hb hdt
    exact ⟨_, hsim⟩

/-- Witness for C10 at a concrete valid bucket and `dt = 1`. -/
theorem claim_C10_witness :
    FrustumBucket.unitBucket.Valid ∧ (0 : ℝ) < 1 ∧
      ((∀ h : ℝ, 1e-6 < h →
          FrustumBucket.unitBucket.cross_sectional_area h ≠ 0) ∧
        ∃ p, FrustumBucket.unitBucket.simulate 1 = some p) :=
  ⟨by refine ⟨?_, ?_, ?_, ?_, ?_, ?_, ?_⟩ <;>
      norm_num [FrustumBucket.unitBucket, water],
   by norm_num,
   claim_C10 FrustumBucket.unitBucket
     (by refine ⟨?_, ?_, ?_, ?_, ?_, ?_, ?_⟩ <;>
        norm_num [FrustumBucket.unitBucket, water])
     1 (by norm_num)⟩

open FrustumBucket in
/-- C6 (amended): `simulate` returns only the trace, with no explicit
`TerminationReason` value; the outcome is recoverable from the final sample:
every run ends with final height `≤ 1e-6` or final time `> 10000`, and a run
whose final height is still above the drained threshold has necessarily
exceeded the time cap, so a caller can tell an abandoned (timed-out) run
from a completed drain by inspecting the final sample. -/
theorem claim_C6 (b : FrustumBucket) (hb : b.Valid) (dt : ℝ) (hdt : 0 < dt) :
    ∃ ts hs, b.simulate dt = some (ts, hs) ∧
      ∃ tl hl, ts.getLast? = some tl ∧ hs.getLast? = some hl ∧
        (hl ≤ 1e-6 ∨ 10000 < tl) ∧ (1e-6 < hl → 10000 < tl) := by
  obtain ⟨s', hloop, hsim, hinv, hh1, hh2, hfin⟩ := simulate_run hb hdt
  refine ⟨s'.times, s'.heights, hsim, s'.time, s'.height, hinv.1, hinv.2.1,
    hfin, ?_⟩
  intro hgt
  rcases hfin with hd | ht
  · linarith
  · exact ht

/-- Witness for C6 at a concrete valid bucket and `dt = 1`. -/
theorem claim_C6_witness :
    FrustumBucket.unitBucket.Valid ∧ (0 : ℝ) < 1 ∧
      (∃ ts hs, FrustumBucket.unitBucket.simulate 1 = some (ts, hs) ∧
        ∃ tl hl, ts.getLast? = some tl ∧ hs.getLast? = some hl ∧
          (hl ≤ 1e-6 ∨ 10000 < tl) ∧ (1e-6 < hl → 10000 < tl)) :=
  ⟨by refine ⟨?_, ?_, ?_, ?_, ?_, ?_, ?_⟩ <;>
      norm_num [FrustumBucket.unitBucket, water],
   by norm_num,
   claim_C6 FrustumBucket.unitBucket
     (by refine ⟨?_, ?_, ?_, ?_, ?_, ?_, ?_⟩ <;>
        norm_num [FrustumBucket.unitBucket, water])
     1 (by norm_num)⟩

open FrustumBucket in
/-- C5 (amended): `simulate` performs no validation of the time step.  For
`dt ≤ 0` on a bucket whose full height exceeds the drain threshold it does
not fail fast; it enters the stepping loop and never terminates: after every
finite number of iterations the loop is still running (the fuel-indexed
model returns no value for any fuel), so the call never returns. -/
theorem claim_C5 (b : FrustumBucket) (hb : b.Valid) (hgt : 1e-6 < b.height)
    (dt : ℝ) (hdt : dt ≤ 0) (n : ℕ) :
    b.simLoop dt n (initState b) = none ∧ b.simulate dt = none := by
  have hh : (1e-6 : ℝ) < (initState b).height := hgt
  have hcap : (initState b).time ≤ 10000 := by norm_num [initState]
  refine ⟨simLoop_none_of_nonpos hb hdt n (initState b) hh hcap, ?_⟩
  rw [simulate,
    simLoop_none_of_nonpos hb hdt (simFuel dt) (initState b) hh hcap]
  rfl

/-- Witness for C5 (amended) at a concrete valid bucket, `dt = 0`, 5 loop
iterations. -/
theorem claim_C5_witness :
    FrustumBucket.tallBucket.Valid ∧
      (1e-6 : ℝ) < FrustumBucket.tallBucket.height ∧ (0 : ℝ) ≤ 0 ∧
      (FrustumBucket.tallBucket.simLoop 0 5
          (FrustumBucket.initState FrustumBucket.tallBucket) = none ∧
        FrustumBucket.tallBucket.simulate 0 = none) :=
  ⟨by refine ⟨?_, ?_, ?_, ?_, ?_, ?_, ?_⟩ <;>
      norm_num [FrustumBucket.tallBucket, water] <;> positivity,
   by rw [FrustumBucket.tallBucket_height]; norm_num,
   le_refl 0,
   claim_C5 FrustumBucket.tallBucket
     (by refine ⟨?_, ?_, ?_, ?_, ?_, ?_, ?_⟩ <;>
        norm_num [FrustumBucket.tallBucket, water] <;> positivity)
     (by rw [FrustumBucket.tallBucket_height]; norm_num)
     0 (le_refl 0) 5⟩

/-- Counterexample to C5 as stated: with `dt = 0` (a non-positive step) on a
concrete valid bucket, `simulate` does not fail fast before the loop — the
loop guard holds, the first iteration executes and appends a second sample
to the trace. -/
theorem claim_C5_cex :
    (FrustumBucket.tallBucket.simStep 0
          (FrustumBucket.initState FrustumBucket.tallBucket)).map
        (fun s => s.times.length) = some 2 ∧
      (1e-6 : ℝ) <
        (FrustumBucket.initState FrustumBucket.tallBucket).height := by
  have h1 : (0 : ℝ) < FrustumBucket.tallBucket.height := by
    rw [FrustumBucket.tallBucket_height]
    norm_num
  have hv : FrustumBucket.tallBucket.Valid := by
    refine ⟨?_, ?_, ?_, ?_, ?_, ?_, ?_⟩ <;>
      norm_num [FrustumBucket.tallBucket, water] <;> positivity
  constructor
  · rw [FrustumBucket.simStep]
    dsimp only
    simp only [FrustumBucket.initState]
    rw [if_neg (FrustumBucket.area_pos hv h1).ne']
    simp
  · rw [show (FrustumBucket.initState FrustumBucket.tallBucket).height =
        FrustumBucket.tallBucket.height from rfl,
      FrustumBucket.tallBucket_height]
    norm_num

open FrustumBucket in
/-- C4 (amended): the constructor performs no parameter validation: for any
parameters whose geometry sum `r1^2 + r1*r2 + r2^2` is nonzero — including
every "invalid" combination with `r1 ≤ r2`, non-positive volume or
non-positive outlet diameter — construction succeeds and a bucket object is
produced; no `ParameterError` exists in the code.  (The only
construction-time failure is the `ZeroDivisionError` of the height formula
when `r1^2 + r1*r2 + r2^2 = 0`.) -/
theorem claim_C4 (r1 r2 volume outlet_diameter discharge_coeff : ℝ)
    (fluid : Option FluidProperties)
    (hden : r1 ^ 2 + r1 * r2 + r2 ^ 2 ≠ 0) :
    ∃ bk, FrustumBucket.construct r1 r2 volume outlet_diameter
        discharge_coeff fluid = some bk := by
  rw [FrustumBucket.construct, if_neg]
  · exact ⟨_, rfl⟩
  · intro hc
    rcases mul_eq_zero.mp hc with hpi | hS
    · exact Real.pi_ne_zero hpi
    · exact hden hS

/-- Witness for C4 (amended) at concrete invalid parameters
(`r1 = 1 ≤ r2 = 2`, negative volume, negative outlet diameter). -/
theorem claim_C4_witness :
    ((1 : ℝ) ^ 2 + 1 * 2 + (2 : ℝ) ^ 2 ≠ 0) ∧
      ∃ bk, FrustumBucket.construct 1 2 (-3) (-1) 1 none = some bk :=
  ⟨by norm_num, claim_C4 1 2 (-3) (-1) 1 none (by norm_num)⟩

/-- Counterexample to C4 as stated: with `r1 = 1 ≤ r2 = 2`, volume `-3 ≤ 0`
and outlet diameter `-1 ≤ 0` the constructor does not raise — it returns a
bucket object. -/
theorem claim_C4_cex :
    (FrustumBucket.construct 1 2 (-3) (-1) 1 none).isSome = true := by
  rw [FrustumBucket.construct, if_neg]
  · rfl
  · intro hc
    rcases mul_eq_zero.mp hc with hpi | hS
    · exact Real.pi_ne_zero hpi
    · norm_num at hS

open FrustumBucket in
/-- C9 (amended): for every pair of equal-length time/height sequences with
at least two samples, `rates` (i.e. `calculate_derivative`, numpy gradient)
returns a sequence of exactly the same length, one value per sample, and
invoking it twice on the same trace gives identical results (it is a pure
function of its argument in this embedding).  Traces with a single sample —
which `simulate` can produce — make `np.gradient` raise instead. -/
theorem claim_C9 (ts hs : List ℝ) (hlen : ts.length = hs.length)
    (h2 : 2 ≤ hs.length) :
    (FrustumBucket.calculate_derivative ts hs).map List.length =
        some hs.length ∧
      FrustumBucket.calculate_derivative ts hs =
        FrustumBucket.calculate_derivative ts hs := by
  rw [FrustumBucket.calculate_derivative, if_pos ⟨h2, hlen⟩]
  exact ⟨by simp, rfl⟩

/-- Witness for C9 (amended) on the concrete trace `([0, 1], [3, 2])`. -/
theorem claim_C9_witness :
    ([(0 : ℝ), 1].length = [(3 : ℝ), 2].length) ∧ 2 ≤ [(3 : ℝ), 2].length ∧
      ((FrustumBucket.calculate_derivative [0, 1] [3, 2]).map List.length =
          some [(3 : ℝ), 2].length ∧
        FrustumBucket.calculate_derivative [0, 1] [3, 2] =
          FrustumBucket.calculate_derivative [0, 1] [3, 2]) :=
  ⟨rfl, by norm_num, claim_C9 [0, 1] [3, 2] rfl (by norm_num)⟩

/-- Counterexample to C9 as stated: `simulate` can produce a one-sample
trace (a bucket whose computed height `1e-7` is already below the drain
threshold), and on that trace `rates` raises (`np.gradient` needs at least
two samples) instead of returning a sequence of the same length. -/
theorem claim_C9_cex :
    FrustumBucket.tinyBucket.simulate 1 = some ([0], [1e-7]) ∧
      FrustumBucket.calculate_derivative [0] [1e-7] = none := by
  constructor
  · have hceil : ⌈(10000 : ℝ) / 1⌉₊ = 10000 := by
      rw [div_one, show (10000 : ℝ) = ((10000 : ℕ) : ℝ) by norm_num,
        Nat.ceil_natCast]
    have hfuel : FrustumBucket.simFuel (1 : ℝ) = 10001 + 1 := by
      rw [FrustumBucket.simFuel, hceil]
    rw [FrustumBucket.simulate, hfuel, FrustumBucket.simLoop, if_pos]
    · simp [FrustumBucket.initState, FrustumBucket.tinyBucket_height]
    · show FrustumBucket.tinyBucket.height ≤ 1e-6
      rw [FrustumBucket.tinyBucket_height]
      norm_num
  · rw [FrustumBucket.calculate_derivative, if_neg]
    norm_num

open FrustumBucket in
/-- C2: for every bucket with discharge coefficient exactly `1.0` and any
fluid, `flow_rate(h) = outlet_area * sqrt(2 * 9.81 * h)` for every `h > 0`,
the result does not depend on the selected fluid (no viscosity correction is
applied), and `flow_rate(h) = 0` for every `h ≤ 0`. -/
theorem claim_C2 (b : FrustumBucket) (hcd : b.discharge_coeff = 1) :
    (∀ h : ℝ, 0 < h →
        b.flow_rate h = b.outlet_area * Real.sqrt (2 * 9.81 * h)) ∧
      (∀ h : ℝ, h ≤ 0 → b.flow_rate h = 0) ∧
      ∀ (h : ℝ) (f : FluidProperties),
        FrustumBucket.flow_rate { b with fluid := f } h = b.flow_rate h := by
  have hG : GRAVITY = (9.81 : ℝ) := rfl
  refine ⟨?_, ?_, ?_⟩
  · intro h hh
    rw [flow_rate, if_neg (not_le.mpr hh)]
    dsimp only
    rw [hcd, if_neg (lt_irrefl (1 : ℝ)), one_mul, hG]
  · intro h hh
    rw [flow_rate, if_pos hh]
  · intro h f
    rcases le_or_lt h 0 with hle | hlt
    · rw [flow_rate, if_pos hle, flow_rate, if_pos hle]
    · rw [flow_rate, if_neg (not_le.mpr hlt), flow_rate,
        if_neg (not_le.mpr hlt)]
      dsimp only
      rw [show ({ b with fluid := f } : FrustumBucket).discharge_coeff =
          b.discharge_coeff from rfl, hcd, if_neg (lt_irrefl (1 : ℝ)),
        if_neg (lt_irrefl (1 : ℝ))]
      rfl

/-- Witness for C2 at a concrete bucket with `Cd = 1`. -/
theorem claim_C2_witness :
    FrustumBucket.unitBucket.discharge_coeff = 1 ∧
      ((∀ h : ℝ, 0 < h →
          FrustumBucket.unitBucket.flow_rate h =
            FrustumBucket.unitBucket.outlet_area *
              Real.sqrt (2 * 9.81 * h)) ∧
        (∀ h : ℝ, h ≤ 0 → FrustumBucket.unitBucket.flow_rate h = 0) ∧
        ∀ (h : ℝ) (f : FluidProperties),
          FrustumBucket.flow_rate { FrustumBucket.unitBucket with
            fluid := f } h = FrustumBucket.unitBucket.flow_rate h) :=
  ⟨rfl, claim_C2 FrustumBucket.unitBucket rfl⟩

open FrustumBucket in
/-- C3: for every bucket with `Cd < 1.0` and every height `h > 0`,
`flow_rate(h) = outlet_area * v * f` where `v = Cd * sqrt(2 * 9.81 * h)`,
`Re = v * outlet_diameter / kinematic_viscosity`, and the correction factor
`f` is `0.7` if `Re < 2300`, `0.85` if `2300 ≤ Re < 4000`, and otherwise
`1 - 1000/Re` if `Re > 1000`, else `0.5`. -/
theorem claim_C3 (b : FrustumBucket) (hcd : b.discharge_coeff < 1) (h : ℝ)
    (hh : 0 < h) (v Re : ℝ)
    (hv : v = b.discharge_coeff * Real.sqrt (2 * 9.81 * h))
    (hRe : Re = v * b.outlet_diameter / b.fluid.kinematic_viscosity) :
    b.flow_rate h = b.outlet_area * v *
      (if Re < 2300 then 0.7
       else if Re < 4000 then 0.85
       else if Re > 1000 then 1 - 1000 / Re else 0.5) := by
  have hG : GRAVITY = (9.81 : ℝ) := rfl
  subst hRe
  subst hv
  rw [flow_rate, if_neg (not_le.mpr hh)]
  dsimp only
  rw [if_pos hcd, ← mul_assoc, reynolds_number, hG]

/-- Witness for C3 at a concrete bucket with `Cd = 1/2` and `h = 1`. -/
theorem claim_C3_witness :
    FrustumBucket.viscousBucket.discharge_coeff < 1 ∧ (0 : ℝ) < 1 ∧
      FrustumBucket.viscousBucket.flow_rate 1 =
        FrustumBucket.viscousBucket.outlet_area *
          (FrustumBucket.viscousBucket.discharge_coeff *
            Real.sqrt (2 * 9.81 * 1)) *
          (if FrustumBucket.viscousBucket.discharge_coeff *
                Real.sqrt (2 * 9.81 * 1) *
                FrustumBucket.viscousBucket.outlet_diameter /
                FrustumBucket.viscousBucket.fluid.kinematic_viscosity <
              2300 then 0.7
           else if FrustumBucket.viscousBucket.discharge_coeff *
                Real.sqrt (2 * 9.81 * 1) *
                FrustumBucket.viscousBucket.outlet_diameter /
                FrustumBucket.viscousBucket.fluid.kinematic_viscosity <
              4000 then 0.85
           else if FrustumBucket.viscousBucket.discharge_coeff *
                Real.sqrt (2 * 9.81 * 1) *
                FrustumBucket.viscousBucket.outlet_diameter /
                FrustumBucket.viscousBucket.fluid.kinematic_viscosity >
              1000 then
             1 - 1000 / (FrustumBucket.viscousBucket.discharge_coeff *
                Real.sqrt (2 * 9.81 * 1) *
                FrustumBucket.viscousBucket.outlet_diameter /
                FrustumBucket.viscousBucket.fluid.kinematic_viscosity)
           else 0.5) :=
  ⟨by norm_num [FrustumBucket.viscousBucket], by norm_num,
   claim_C3 FrustumBucket.viscousBucket
     (by norm_num [FrustumBucket.viscousBucket]) 1 (by norm_num) _ _ rfl rfl⟩

open FrustumBucket in
/-- C7 (amended): for the ideal discharge coefficient `Cd = 1.0` (where no
viscosity correction applies), `flow_rate` is monotonically non-decreasing
in the water height; for `Cd < 1.0` monotonicity fails at the
transitional-to-turbulent boundary `Re = 4000`, where the correction factor
drops from `0.85` to `0.75` (see the counterexample). -/
theorem claim_C7 (b : FrustumBucket) (hcd : b.discharge_coeff = 1)
    (h1 h2 : ℝ) (hle : h1 ≤ h2) : b.flow_rate h1 ≤ b.flow_rate h2 := by
  rcases le_or_lt h1 0 with h10 | h10
  · rw [flow_rate, if_pos h10]
    exact flow_rate_nonneg (by rw [hcd]; norm_num) h2
  · have h20 : 0 < h2 := lt_of_lt_of_le h10 hle
    rw [flow_rate, if_neg (not_le.mpr h10), flow_rate,
      if_neg (not_le.mpr h20)]
    dsimp only
    rw [hcd, if_neg (lt_irrefl (1 : ℝ)), if_neg (lt_irrefl (1 : ℝ)),
      one_mul, one_mul]
    apply mul_le_mul_of_nonneg_left _ b.outlet_area_nonneg
    apply Real.sqrt_le_sqrt
    have hG : (0 : ℝ) < GRAVITY := by norm_num [GRAVITY]
    nlinarith

/-- Witness for C7 (amended) at a concrete bucket with `Cd = 1` and the
heights `1 ≤ 2`. -/
theorem claim_C7_witness :
    FrustumBucket.unitBucket.discharge_coeff = 1 ∧ (1 : ℝ) ≤ 2 ∧
      FrustumBucket.unitBucket.flow_rate 1 ≤
        FrustumBucket.unitBucket.flow_rate 2 :=
  ⟨rfl, by norm_num,
   claim_C7 FrustumBucket.unitBucket rfl 1 2 (by norm_num)⟩

/-- Counterexample to C7 as stated: for a bucket with `Cd = 1/2`, a `4 mm`
outlet and water, the heights `h1 = 361/1962 < h2 = 200/981` give Reynolds
numbers `3800` (factor `0.85`) and `4000` (factor `0.75`), so the flow rate
STRICTLY DECREASES from `h1` to `h2` — `flow_rate` is not monotonically
non-decreasing in the height for fixed `Cd < 1` and fixed fluid. -/
theorem claim_C7_cex :
    (361 / 1962 : ℝ) < 200 / 981 ∧
      FrustumBucket.viscousBucket.flow_rate (200 / 981) <
        FrustumBucket.viscousBucket.flow_rate (361 / 1962) := by
  have hsq1 : Real.sqrt (2 * FrustumBucket.GRAVITY * (361 / 1962 : ℝ)) =
      19 / 10 := by
    rw [show (2 * FrustumBucket.GRAVITY * (361 / 1962 : ℝ)) = (19 / 10) ^ 2
      by norm_num [FrustumBucket.GRAVITY]]
    exact Real.sqrt_sq (by norm_num)
  have hsq2 : Real.sqrt (2 * FrustumBucket.GRAVITY * (200 / 981 : ℝ)) =
      2 := by
    rw [show (2 * FrustumBucket.GRAVITY * (200 / 981 : ℝ)) = (2 : ℝ) ^ 2
      by norm_num [FrustumBucket.GRAVITY]]
    exact Real.sqrt_sq (by norm_num)
  have hf1 : FrustumBucket.viscousBucket.flow_rate (361 / 1962) =
      Real.pi * (1 / 500) ^ 2 * (19 / 20 * 0.85) := by
    rw [FrustumBucket.flow_rate, if_neg (by norm_num)]
    dsimp only
    rw [if_pos (show FrustumBucket.viscousBucket.discharge_coeff < 1
      by norm_num [FrustumBucket.viscousBucket])]
    rw [FrustumBucket.reynolds_number, hsq1, FrustumBucket.outlet_area]
    simp only [FrustumBucket.viscousBucket, water]
    norm_num
  have hf2 : FrustumBucket.viscousBucket.flow_rate (200 / 981) =
      Real.pi * (1 / 500) ^ 2 * (1 * (3 / 4)) := by
    rw [FrustumBucket.flow_rate, if_neg (by norm_num)]
    dsimp only
    rw [if_pos (show FrustumBucket.viscousBucket.discharge_coeff < 1
      by norm_num [FrustumBucket.viscousBucket])]
    rw [FrustumBucket.reynolds_number, hsq2, FrustumBucket.outlet_area]
    simp only [FrustumBucket.viscousBucket, water]
    norm_num
  refine ⟨by norm_num, ?_⟩
  rw [hf1, hf2]
  have hπ := Real.pi_pos
  nlinarith

/-- Counterexample to C6 as stated: `simulate` returns no `TerminationReason`
at all, and no single reason could satisfy the claim's two "exactly when"
conditions: on a concrete valid bucket with `dt = 10001` the run ends with
final height `0 ≤ 1e-6` (drained) AND final time `10001 > 10000` (timed
out) simultaneously, so a reason that is `Drained` exactly when the height
threshold is met and `TimedOut` exactly when the cap is exceeded cannot
exist. -/
theorem claim_C6_cex :
    FrustumBucket.capBucket.simulate 10001 =
        some ([0, 10001], [200 / 981, 0]) ∧
      ((0 : ℝ) ≤ 1e-6 ∧ (10001 : ℝ) > 10000) ∧
      ¬∃ r : TerminationReason,
        (r = TerminationReason.Drained ↔ (0 : ℝ) ≤ 1e-6) ∧
          (r = TerminationReason.TimedOut ↔ (10001 : ℝ) > 10000) := by
  have hH := FrustumBucket.capBucket_height
  have hinitC : FrustumBucket.initState FrustumBucket.capBucket =
      ⟨0, 200 / 981, [0], [(200 : ℝ) / 981]⟩ := by
    rw [FrustumBucket.initState, hH]
  have hsqC : Real.sqrt (2 * FrustumBucket.GRAVITY * (200 / 981 : ℝ)) =
      2 := by
    rw [show (2 * FrustumBucket.GRAVITY * (200 / 981 : ℝ)) = (2 : ℝ) ^ 2
      by norm_num [FrustumBucket.GRAVITY]]
    exact Real.sqrt_sq (by norm_num)
  have hQ : FrustumBucket.capBucket.flow_rate (200 / 981) = 2 * Real.pi := by
    rw [FrustumBucket.flow_rate, if_neg (by norm_num)]
    dsimp only
    rw [if_neg (show ¬FrustumBucket.capBucket.discharge_coeff < 1
      by norm_num [FrustumBucket.capBucket])]
    rw [hsqC, FrustumBucket.outlet_area]
    simp only [FrustumBucket.capBucket]
    norm_num
    ring
  have hA : FrustumBucket.capBucket.cross_sectional_area (200 / 981) =
      Real.pi := by
    rw [FrustumBucket.cross_sectional_area, FrustumBucket.radius_at_height,
      hH]
    simp only [FrustumBucket.capBucket]
    norm_num
  have hdiv : -(2 * Real.pi) / Real.pi = -2 := by
    field_simp
  have hstep : FrustumBucket.capBucket.simStep 10001
      ⟨0, 200 / 981, [0], [(200 : ℝ) / 981]⟩ =
      some ⟨10001, 0, [0, 10001], [(200 : ℝ) / 981, 0]⟩ := by
    rw [FrustumBucket.simStep]
    dsimp only
    rw [hA, if_neg Real.pi_ne_zero, hQ, hdiv]
    rw [if_pos (by norm_num : (200 / 981 : ℝ) + -2 * 10001 < 0)]
    norm_num
  have hfuelC : FrustumBucket.simFuel (10001 : ℝ) = 2 + 1 := by
    have h1 : ⌈(10000 : ℝ) / 10001⌉₊ ≤ 1 := Nat.ceil_le.mpr (by norm_num)
    have h2 : 0 < ⌈(10000 : ℝ) / 10001⌉₊ := Nat.ceil_pos.mpr (by norm_num)
    rw [FrustumBucket.simFuel]
    omega
  refine ⟨?_, ⟨by norm_num, by norm_num⟩, ?_⟩
  · rw [FrustumBucket.simulate, hfuelC, hinitC, FrustumBucket.simLoop]
    dsimp only
    rw [if_neg (by norm_num : ¬((200 : ℝ) / 981 ≤ 1e-6))]
    rw [hstep]
    dsimp only
    rw [if_pos (by norm_num : (10001 : ℝ) > 10000)]
    rfl
  · rintro ⟨r, hD, hT⟩
    have h1 := hD.mpr (by norm_num)
    have h2 := hT.mpr (by norm_num)
    rw [h1] at h2
    simp at h2
